import Mathlib

/-!
Verification of the dingo SSH command/script execution core.

The Go sources (pkg/dingo/command.go, client.go, shell.go, types.go) are
shallowly embedded: the `remoteScript` and `remoteShell` records become Lean
structures, mutable-field methods become state-passing functions, and the SSH
transport collaborator becomes an explicit oracle (`Transport`,
`ShellTransport`) describing what every session open, remote run, shell start
and wait would do.  A `World` carries the observable effects: the contents of
every writer buffer, the number of sessions opened so far, and the trace of
transport events.
-/

namespace Dingo

/-- A Go `error` value, identified by its message. -/
structure GoError where
  msg : String
deriving DecidableEq, Repr

/-- `errors.New ("unsupported script type")` from `remoteScript.Run`. -/
def unsupportedScriptTypeErr : GoError := ⟨"unsupported script type"⟩

/-- The error set by `remoteScript.Cmd` when the script type is not `CommandLine`. -/
def cmdOnlyCommandLineErr : GoError :=
  ⟨"Cmd() can only be used with CommandLine script type"⟩

/-- `ScriptType` constant `CommandLine` (Go: `ScriptType byte`, `iota` value 0). -/
def CommandLine : Nat := 0

/-- `ScriptType` constant `RawScript` (`iota` value 1). -/
def RawScript : Nat := 1

/-- `ScriptType` constant `ScriptFile` (`iota` value 2). -/
def ScriptFile : Nat := 2

/-- ASCII model of Go `unicode.IsSpace`, used by `strings.TrimSpace`. -/
def goIsSpace (c : Char) : Bool :=
  c = ' ' || c = '\t' || c = '\n' || c = '\x0b' || c = '\x0c' || c = '\r'

/-- Trim of a character list: drop leading and trailing whitespace. -/
def trimChars (l : List Char) : List Char :=
  ((l.dropWhile goIsSpace).reverse.dropWhile goIsSpace).reverse

/-- Go `strings.TrimSpace`. -/
def trimSpace (s : String) : String :=
  ⟨trimChars s.data⟩

/-- Split a character list at every newline character; `strings.Split(s, "\n")`
on the underlying characters (always returns at least one piece). -/
def splitLines : List Char → List (List Char)
  | [] => [[]]
  | c :: cs =>
    if c = '\n' then [] :: splitLines cs
    else
      match splitLines cs with
      | [] => [[c]]
      | l :: ls => (c :: l) :: ls

/-- Go `strings.Split(s, "\n")`. -/
def splitNewline (s : String) : List String :=
  (splitLines s.data).map String.mk

/-- Behaviour of one remote step: the error it returns and the bytes it writes
to the session's bound stdout and stderr while running. -/
structure CmdBehavior where
  err : Option GoError
  out : String
  errOut : String

/-- Oracle for the SSH transport used by `remoteScript`: what the `k`-th
`client.NewSession` call returns, what `session.Run cmd` does, and what
`session.Shell` / `session.Wait` do when the session's stdin is bound to a
given script text. -/
structure Transport where
  newSession : Nat → Option GoError
  run : String → CmdBehavior
  shellStart : String → Option GoError
  wait : String → CmdBehavior

/-- Oracle for the local filesystem: read a whole file (os.Open + io.Copy). -/
abbrev FileSys := String → Except GoError String

/-- Observable transport events, in order. -/
inductive Event
  | newSessionFail
  | newSession
  | runCmd (cmd : String)
  | shellStart
  | wait
  | closeSession
deriving DecidableEq, Repr

/-- The observable world: contents of every writer buffer (by id), a counter
of `NewSession` calls made, an allocator for fresh buffers, and the event
trace. -/
structure World where
  buffers : Nat → String
  nextBuf : Nat
  sessions : Nat
  trace : List Event

/-- Contents of buffer `i`. -/
def getBuf (w : World) (i : Nat) : String :=
  w.buffers i

/-- Write `s` to a sink: appending to the designated buffer, or discarded for
a nil (`none`) writer. -/
def writeSink (w : World) (sink : Option Nat) (s : String) : World :=
  match sink with
  | none => w
  | some i => { w with buffers := fun j => if j = i then w.buffers j ++ s else w.buffers j }

/-- The `remoteScript` record from command.go (the `*ssh.Client` pointer is
replaced by the `Transport` oracle passed to each operation). -/
structure RemoteScript where
  scriptType : Nat
  script : String
  scriptFile : String
  err : Option GoError
  stdout : Option Nat
  stderr : Option Nat
deriving DecidableEq, Repr

/-- `remoteScript.runSingleCommand`: open a fresh session, bind the sinks,
run the command, close the session. -/
def runSingleCommand (tr : Transport) (rs : RemoteScript) (w : World) (cmd : String) :
    Option GoError × World :=
  match tr.newSession w.sessions with
  | some e =>
    (some e, { w with sessions := w.sessions + 1, trace := w.trace ++ [Event.newSessionFail] })
  | none =>
    let b := tr.run cmd
    let w1 : World :=
      { w with sessions := w.sessions + 1, trace := w.trace ++ [Event.newSession] }
    let w2 := writeSink w1 rs.stdout b.out
    let w3 := writeSink w2 rs.stderr b.errOut
    (b.err, { w3 with trace := w3.trace ++ [Event.runCmd cmd, Event.closeSession] })

/-- The loop body of `remoteScript.runCommands` over the split lines. -/
def runLines (tr : Transport) (rs : RemoteScript) : World → List String → Option GoError × World
  | w, [] => (none, w)
  | w, line :: rest =>
    let cmd := trimSpace line
    if cmd = "" then runLines tr rs w rest
    else
      match runSingleCommand tr rs w cmd with
      | (some e, w') => (some e, w')
      | (none, w') => runLines tr rs w' rest

/-- `remoteScript.runCommands`: split the script on newlines and run the
lines in order, stopping at the first failure. -/
def runCommands (tr : Transport) (rs : RemoteScript) (w : World) : Option GoError × World :=
  runLines tr rs w (splitNewline rs.script)

/-- `remoteScript.runScript`: one session, stdin bound to the script body,
`session.Shell()` then `session.Wait()`. -/
def runScript (tr : Transport) (rs : RemoteScript) (w : World) : Option GoError × World :=
  match tr.newSession w.sessions with
  | some e =>
    (some e, { w with sessions := w.sessions + 1, trace := w.trace ++ [Event.newSessionFail] })
  | none =>
    let w1 : World :=
      { w with sessions := w.sessions + 1, trace := w.trace ++ [Event.newSession] }
    match tr.shellStart rs.script with
    | some e => (some e, { w1 with trace := w1.trace ++ [Event.shellStart, Event.closeSession] })
    | none =>
      let b := tr.wait rs.script
      let w2 := writeSink w1 rs.stdout b.out
      let w3 := writeSink w2 rs.stderr b.errOut
      (b.err,
       { w3 with trace := w3.trace ++ [Event.shellStart, Event.wait, Event.closeSession] })

/-- `remoteScript.runScriptFile`: read the local file, temporarily switch the
record to `RawScript` mode with the file content as body, run, then restore
the original `script` and `scriptType` fields. -/
def runScriptFile (fs : FileSys) (tr : Transport) (rs : RemoteScript) (w : World) :
    Option GoError × RemoteScript × World :=
  match fs rs.scriptFile with
  | Except.error e => (some e, rs, w)
  | Except.ok content =>
    let originalScript := rs.script
    let originalType := rs.scriptType
    let rs1 : RemoteScript := { rs with script := content, scriptType := RawScript }
    let p := runScript tr rs1 w
    (p.1, { rs1 with script := originalScript, scriptType := originalType }, p.2)

/-- `remoteScript.Run`: short-circuit on a deferred error, otherwise dispatch
on the script type. -/
def Run (fs : FileSys) (tr : Transport) (rs : RemoteScript) (w : World) :
    Option GoError × RemoteScript × World :=
  match rs.err with
  | some e => (some e, rs, w)
  | none =>
    if rs.scriptType = CommandLine then
      let p := runCommands tr rs w
      (p.1, rs, p.2)
    else if rs.scriptType = RawScript then
      let p := runScript tr rs w
      (p.1, rs, p.2)
    else if rs.scriptType = ScriptFile then
      runScriptFile fs tr rs w
    else
      (some unsupportedScriptTypeErr, rs, w)

/-- `remoteScript.Output`: save the stdout sink, substitute a fresh private
buffer, run, restore the sink, and return the buffer's bytes with `Run`'s
error.  Returns `none` for the Go `nil` byte slice of the deferred-error
short-circuit. -/
def Output (fs : FileSys) (tr : Transport) (rs : RemoteScript) (w : World) :
    Option String × Option GoError × RemoteScript × World :=
  match rs.err with
  | some e => (none, some e, rs, w)
  | none =>
    let originalStdout := rs.stdout
    let bufId := w.nextBuf
    let w1 : World :=
      { w with buffers := fun j => if j = bufId then "" else w.buffers j,
               nextBuf := w.nextBuf + 1 }
    let rs1 : RemoteScript := { rs with stdout := some bufId }
    let q := Run fs tr rs1 w1
    (some (getBuf q.2.2 bufId), q.1, { q.2.1 with stdout := originalStdout }, q.2.2)

/-- `remoteScript.SmartOutput`: save both sinks, substitute two fresh private
buffers, run, restore both sinks; return the stderr buffer's bytes on
failure and the stdout buffer's bytes on success. -/
def SmartOutput (fs : FileSys) (tr : Transport) (rs : RemoteScript) (w : World) :
    Option String × Option GoError × RemoteScript × World :=
  match rs.err with
  | some e => (none, some e, rs, w)
  | none =>
    let originalStdout := rs.stdout
    let originalStderr := rs.stderr
    let outId := w.nextBuf
    let errId := w.nextBuf + 1
    let w1 : World :=
      { w with buffers := fun j => if j = outId ∨ j = errId then "" else w.buffers j,
               nextBuf := w.nextBuf + 2 }
    let rs1 : RemoteScript := { rs with stdout := some outId, stderr := some errId }
    let q := Run fs tr rs1 w1
    match q.1 with
    | some e =>
      (some (getBuf q.2.2 errId), some e,
       { q.2.1 with stdout := originalStdout, stderr := originalStderr }, q.2.2)
    | none =>
      (some (getBuf q.2.2 outId), none,
       { q.2.1 with stdout := originalStdout, stderr := originalStderr }, q.2.2)

/-- `remoteScript.SetStdio`: rebind the persistent sinks. -/
def SetStdio (rs : RemoteScript) (stdout stderr : Option Nat) : RemoteScript :=
  { rs with stdout := stdout, stderr := stderr }

/-- `remoteScript.Cmd`: in `CommandLine` mode append the command to the body
(newline-joined when non-empty); in any other mode leave the body alone and
record the deferred error. -/
def Cmd (rs : RemoteScript) (cmd : String) : RemoteScript :=
  if rs.scriptType = CommandLine then
    if rs.script = "" then { rs with script := cmd }
    else { rs with script := rs.script ++ "\n" ++ cmd }
  else
    { rs with err := some cmdOnlyCommandLineErr }

namespace client

/-- `client.Command`: fresh `CommandLine`-mode specification. -/
def Command (cmd : String) : RemoteScript :=
  { scriptType := CommandLine, script := cmd, scriptFile := "", err := none,
    stdout := none, stderr := none }

/-- `client.Script`: fresh `RawScript`-mode specification. -/
def Script (script : String) : RemoteScript :=
  { scriptType := RawScript, script := script, scriptFile := "", err := none,
    stdout := none, stderr := none }

/-- `client.ScriptFile`: fresh `ScriptFile`-mode specification. -/
def ScriptFile (path : String) : RemoteScript :=
  { scriptType := Dingo.ScriptFile, script := "", scriptFile := path, err := none,
    stdout := none, stderr := none }

end client

/-- `TerminalConfig` from types.go (`Modes` models `ssh.TerminalModes`,
a map from opcode to value; Go `int` widths are modelled as `Int`). -/
structure TerminalConfig where
  Term : String
  Width : Int
  Height : Int
  Modes : List (Nat × Nat)
deriving DecidableEq, Repr

/-- The package-level `DefaultTerminalConfig` from types.go. -/
def DefaultTerminalConfig : TerminalConfig :=
  { Term := "xterm", Width := 80, Height := 40, Modes := [] }

/-- The `remoteShell` record from shell.go (streams are sink ids; `none`
means the Go field is nil, bound to the OS default stream at start). -/
structure RemoteShell where
  shellType : Nat
  requestPty : Bool
  terminalConfig : Option TerminalConfig
  stdin : Option Nat
  stdout : Option Nat
  stderr : Option Nat
deriving DecidableEq, Repr

/-- `ShellType` constant `InteractiveShell` (`iota` value 0). -/
def InteractiveShell : Nat := 0

/-- `ShellType` constant `NonInteractiveShell` (`iota` value 1). -/
def NonInteractiveShell : Nat := 1

/-- Observable events of one `remoteShell.Start` call.  The `runCmd` event
records the initial command and the (discarded) result of `session.Run`. -/
inductive ShellEvent
  | newSessionFail
  | newSession
  | requestPty (term : String) (height width : Int) (modes : List (Nat × Nat))
  | runCmd (cmd : String) (result : Option GoError)
  | shellStart
  | wait
  | closeSession
deriving DecidableEq, Repr

/-- Transport oracle for one `remoteShell.Start` call: the result of the one
`NewSession` call, of `RequestPty` at given parameters, of `session.Run` on
the initial command, of `session.Shell`, and of `session.Wait`. -/
structure ShellTransport where
  newSessionErr : Option GoError
  ptyErr : String → Int → Int → Option GoError
  runErr : String → Option GoError
  shellErr : Option GoError
  waitErr : Option GoError

/-- `remoteShell.requestPseudoTerminal`: use the stored terminal config, or
`DefaultTerminalConfig` when it is nil, and call
`session.RequestPty(tc.Term, tc.Height, tc.Width, tc.Modes)`. -/
def requestPseudoTerminal (tr : ShellTransport) (rs : RemoteShell) :
    Option GoError × ShellEvent :=
  let tc :=
    match rs.terminalConfig with
    | none => DefaultTerminalConfig
    | some c => c
  (tr.ptyErr tc.Term tc.Height tc.Width,
   ShellEvent.requestPty tc.Term tc.Height tc.Width tc.Modes)

/-- `remoteShell.Start`: open one session (closed on every exit path), set up
streams, request a PTY when `requestPty` is set, issue the initial command
when non-empty (its error is discarded), start the shell, and wait. -/
def Start (tr : ShellTransport) (rs : RemoteShell) (command : String) :
    Option GoError × List ShellEvent :=
  match tr.newSessionErr with
  | some e => (some e, [ShellEvent.newSessionFail])
  | none =>
    let t0 : List ShellEvent := [ShellEvent.newSession]
    let ptyStep : Option GoError × List ShellEvent :=
      if rs.requestPty then
        let p := requestPseudoTerminal tr rs
        (p.1, [p.2])
      else (none, [])
    match ptyStep with
    | (some e, tp) => (some e, t0 ++ tp ++ [ShellEvent.closeSession])
    | (none, tp) =>
      let t1 := t0 ++ tp
      let t2 :=
        if command = "" then t1
        else t1 ++ [ShellEvent.runCmd command (tr.runErr command)]
      match tr.shellErr with
      | some e => (some e, t2 ++ [ShellEvent.shellStart, ShellEvent.closeSession])
      | none =>
        (tr.waitErr, t2 ++ [ShellEvent.shellStart, ShellEvent.wait, ShellEvent.closeSession])

/-- `remoteShell.SetStdio`: rebind the three streams. -/
def ShellSetStdio (rs : RemoteShell) (stdin : Option Nat) (stdout stderr : Option Nat) :
    RemoteShell :=
  { rs with stdin := stdin, stdout := stdout, stderr := stderr }

/-!
Specification-level descriptions of the execution strategies, written from
the spec's words (split, trim, skip blanks, run in order in fresh sessions,
abort at the first failure).  The refinement theorems below relate them to
the embedded code.
-/

/-- The effective command list of a body: split on newlines, trim each line,
drop blank lines. -/
def effectiveCmds (s : String) : List String :=
  ((splitNewline s).map trimSpace).filter (fun c => ¬ c = "")

/-- Spec-level error of running commands in order from session index `k`:
the first session-open or run error, or `none`. -/
def seqError (tr : Transport) : Nat → List String → Option GoError
  | _, [] => none
  | k, c :: rest =>
    match tr.newSession k with
    | some e => some e
    | none =>
      match (tr.run c).err with
      | some e => some e
      | none => seqError tr (k + 1) rest

/-- Spec-level transport trace of running commands in order: one
open/run/close block per command, stopping at the first failure. -/
def seqTrace (tr : Transport) : Nat → List String → List Event
  | _, [] => []
  | k, c :: rest =>
    match tr.newSession k with
    | some _ => [Event.newSessionFail]
    | none =>
      match (tr.run c).err with
      | some _ => [Event.newSession, Event.runCmd c, Event.closeSession]
      | none =>
        [Event.newSession, Event.runCmd c, Event.closeSession] ++ seqTrace tr (k + 1) rest

/-- Spec-level bytes written to the bound stdout and stderr while running
commands in order, stopping at the first failure (the failing command's own
output is included; a failed session open writes nothing). -/
def seqCaptured (tr : Transport) : Nat → List String → String × String
  | _, [] => ("", "")
  | k, c :: rest =>
    match tr.newSession k with
    | some _ => ("", "")
    | none =>
      let b := tr.run c
      match b.err with
      | some _ => (b.out, b.errOut)
      | none =>
        let p := seqCaptured tr (k + 1) rest
        (b.out ++ p.1, b.errOut ++ p.2)

/-- Spec-level error of one raw-script run of `s` from session index `k`. -/
def rawError (tr : Transport) (s : String) (k : Nat) : Option GoError :=
  match tr.newSession k with
  | some e => some e
  | none =>
    match tr.shellStart s with
    | some e => some e
    | none => (tr.wait s).err

/-- Spec-level bytes a raw-script run of `s` writes to the bound sinks. -/
def rawCaptured (tr : Transport) (s : String) (k : Nat) : String × String :=
  match tr.newSession k with
  | some _ => ("", "")
  | none =>
    match tr.shellStart s with
    | some _ => ("", "")
    | none => ((tr.wait s).out, (tr.wait s).errOut)

/-- Spec-level error of a dispatched run of specification `rs` (no deferred
error) from session index `k`. -/
def runErrorSpec (fs : FileSys) (tr : Transport) (rs : RemoteScript) (k : Nat) :
    Option GoError :=
  if rs.scriptType = CommandLine then seqError tr k (effectiveCmds rs.script)
  else if rs.scriptType = RawScript then rawError tr rs.script k
  else if rs.scriptType = ScriptFile then
    match fs rs.scriptFile with
    | Except.error e => some e
    | Except.ok content => rawError tr content k
  else some unsupportedScriptTypeErr

/-- Spec-level bytes a dispatched run of `rs` writes to the bound sinks. -/
def runCapturedSpec (fs : FileSys) (tr : Transport) (rs : RemoteScript) (k : Nat) :
    String × String :=
  if rs.scriptType = CommandLine then seqCaptured tr k (effectiveCmds rs.script)
  else if rs.scriptType = RawScript then rawCaptured tr rs.script k
  else if rs.scriptType = ScriptFile then
    match fs rs.scriptFile with
    | Except.error _ => ("", "")
    | Except.ok content => rawCaptured tr content k
  else ("", "")

/-- One abstract operation on an execution specification, for closure
properties over arbitrary call sequences. -/
inductive Op
  | cmd (c : String)
  | setStdio (o e : Option Nat)
  | run (fs : FileSys) (tr : Transport) (w : World)
  | output (fs : FileSys) (tr : Transport) (w : World)
  | smartOutput (fs : FileSys) (tr : Transport) (w : World)

/-- The specification state after one operation. -/
def applyOp (rs : RemoteScript) : Op → RemoteScript
  | Op.cmd c => Cmd rs c
  | Op.setStdio o e => SetStdio rs o e
  | Op.run fs tr w => (Run fs tr rs w).2.1
  | Op.output fs tr w => (Output fs tr rs w).2.2.1
  | Op.smartOutput fs tr w => (SmartOutput fs tr rs w).2.2.1

/-- The specification state after a sequence of operations. -/
def applyOps (rs : RemoteScript) : List Op → RemoteScript
  | [] => rs
  | op :: ops => applyOps (applyOp rs op) ops

/-! Basic facts about sinks and worlds. -/

@[simp] lemma writeSink_none (w : World) (s : String) : writeSink w none s = w := rfl

@[simp] lemma writeSink_trace (w : World) (sink : Option Nat) (s : String) :
    (writeSink w sink s).trace = w.trace := by
  cases sink <;> rfl

@[simp] lemma writeSink_sessions (w : World) (sink : Option Nat) (s : String) :
    (writeSink w sink s).sessions = w.sessions := by
  cases sink <;> rfl

@[simp] lemma writeSink_nextBuf (w : World) (sink : Option Nat) (s : String) :
    (writeSink w sink s).nextBuf = w.nextBuf := by
  cases sink <;> rfl

@[simp] lemma getBuf_writeSink_self (w : World) (i : Nat) (s : String) :
    getBuf (writeSink w (some i) s) i = getBuf w i ++ s := by
  simp [writeSink, getBuf]

lemma getBuf_writeSink_other (w : World) {i j : Nat} (s : String) (h : j ≠ i) :
    getBuf (writeSink w (some i) s) j = getBuf w j := by
  simp [writeSink, getBuf, h]

/-! The dispatch of `Run` never changes the specification record. -/

lemma runScriptFile_spec_unchanged (fs : FileSys) (tr : Transport) (rs : RemoteScript)
    (w : World) : (runScriptFile fs tr rs w).2.1 = rs := by
  unfold runScriptFile
  cases h : fs rs.scriptFile <;> rfl

lemma Run_spec_unchanged (fs : FileSys) (tr : Transport) (rs : RemoteScript) (w : World) :
    (Run fs tr rs w).2.1 = rs := by
  unfold Run
  cases h : rs.err
  · by_cases h0 : rs.scriptType = CommandLine
    · simp [h0]
    · by_cases h1 : rs.scriptType = RawScript
      · simp [h0, h1, CommandLine, RawScript]
      · by_cases h2 : rs.scriptType = ScriptFile
        · simp [h0, h1, h2, CommandLine, RawScript, ScriptFile,
            runScriptFile_spec_unchanged]
        · simp [h0, h1, h2]
  · simp

/-! Refinement of `runCommands` to the spec-level sequence functions. -/

lemma runLines_err (tr : Transport) (rs : RemoteScript) :
    ∀ (lines : List String) (w : World),
      (runLines tr rs w lines).1
        = seqError tr w.sessions ((lines.map trimSpace).filter (fun c => ¬ c = "")) := by
  intro lines
  induction lines with
  | nil => intro w; rfl
  | cons line rest ih =>
    intro w
    by_cases hb : trimSpace line = ""
    · simpa [runLines, hb] using ih w
    · cases hs : tr.newSession w.sessions with
      | some e => simp [runLines, runSingleCommand, hs, hb, seqError]
      | none =>
        cases he : (tr.run (trimSpace line)).err with
        | some e => simp [runLines, runSingleCommand, hs, he, hb, seqError]
        | none => simp [runLines, runSingleCommand, hs, he, hb, seqError, ih]

lemma runLines_trace (tr : Transport) (rs : RemoteScript) :
    ∀ (lines : List String) (w : World),
      (runLines tr rs w lines).2.trace
        = w.trace ++ seqTrace tr w.sessions ((lines.map trimSpace).filter (fun c => ¬ c = "")) := by
  intro lines
  induction lines with
  | nil => intro w; simp [runLines, seqTrace]
  | cons line rest ih =>
    intro w
    by_cases hb : trimSpace line = ""
    · simpa [runLines, hb] using ih w
    · cases hs : tr.newSession w.sessions with
      | some e => simp [runLines, runSingleCommand, hs, hb, seqTrace]
      | none =>
        cases he : (tr.run (trimSpace line)).err with
        | some e => simp [runLines, runSingleCommand, hs, he, hb, seqTrace]
        | none => simp [runLines, runSingleCommand, hs, he, hb, seqTrace, ih]

lemma runLines_blank (tr : Transport) (rs : RemoteScript) :
    ∀ (lines : List String) (w : World), (∀ l ∈ lines, trimSpace l = "") →
      runLines tr rs w lines = (none, w) := by
  intro lines
  induction lines with
  | nil => intro w _; rfl
  | cons line rest ih =>
    intro w h
    have hb : trimSpace line = "" := h line (List.mem_cons_self _ _)
    have hr : ∀ l ∈ rest, trimSpace l = "" := fun l hl => h l (List.mem_cons_of_mem _ hl)
    simp [runLines, hb, ih w hr]

lemma runLines_capt (tr : Transport) (rs : RemoteScript) {oi ei : Nat}
    (hoe : oi ≠ ei) (ho : rs.stdout = some oi) (he : rs.stderr = some ei) :
    ∀ (lines : List String) (w : World),
      getBuf (runLines tr rs w lines).2 oi
          = getBuf w oi
            ++ (seqCaptured tr w.sessions ((lines.map trimSpace).filter (fun c => ¬ c = ""))).1
        ∧ getBuf (runLines tr rs w lines).2 ei
          = getBuf w ei
            ++ (seqCaptured tr w.sessions ((lines.map trimSpace).filter (fun c => ¬ c = ""))).2 := by
  intro lines
  induction lines with
  | nil => intro w; simp [runLines, seqCaptured]
  | cons line rest ih =>
    intro w
    by_cases hb : trimSpace line = ""
    · simpa [runLines, hb] using ih w
    · have hoe' : ei ≠ oi := Ne.symm hoe
      cases hs : tr.newSession w.sessions with
      | some e =>
        simp [runLines, runSingleCommand, hs, hb, seqCaptured, getBuf]
      | none =>
        cases hre : (tr.run (trimSpace line)).err with
        | some e =>
          refine ⟨?_, ?_⟩ <;>
            simp [runLines, runSingleCommand, hs, hre, hb, seqCaptured, ho, he,
              getBuf, writeSink, hoe, hoe']
        | none =>
          refine ⟨?_, ?_⟩
          · simp only [runLines, hb, ite_false, if_neg, runSingleCommand, hs, hre, ho, he]
            rw [(ih _).1]
            simp [seqCaptured, hs, hre, hb, writeSink, getBuf, hoe, hoe',
              String.append_assoc]
          · simp only [runLines, hb, ite_false, if_neg, runSingleCommand, hs, hre, ho, he]
            rw [(ih _).2]
            simp [seqCaptured, hs, hre, hb, writeSink, getBuf, hoe, hoe',
              String.append_assoc]

/-! Characterization of `runScript` and of the full dispatch `Run`. -/

lemma runScript_err (tr : Transport) (rs : RemoteScript) (w : World) :
    (runScript tr rs w).1 = rawError tr rs.script w.sessions := by
  unfold runScript rawError
  cases hs : tr.newSession w.sessions with
  | some e => simp
  | none => cases hsh : tr.shellStart rs.script <;> simp

lemma runScript_capt (tr : Transport) (rs : RemoteScript) (w : World) {oi ei : Nat}
    (hoe : oi ≠ ei) (ho : rs.stdout = some oi) (he : rs.stderr = some ei) :
    getBuf (runScript tr rs w).2 oi = getBuf w oi ++ (rawCaptured tr rs.script w.sessions).1
      ∧ getBuf (runScript tr rs w).2 ei = getBuf w ei ++ (rawCaptured tr rs.script w.sessions).2 := by
  have hoe' : ei ≠ oi := Ne.symm hoe
  unfold runScript rawCaptured
  cases hs : tr.newSession w.sessions with
  | some e => simp [getBuf]
  | none =>
    cases hsh : tr.shellStart rs.script with
    | some e => simp [getBuf]
    | none => simp [ho, he, writeSink, getBuf, hoe, hoe']

lemma Run_err (fs : FileSys) (tr : Transport) (rs : RemoteScript) (w : World)
    (h : rs.err = none) :
    (Run fs tr rs w).1 = runErrorSpec fs tr rs w.sessions := by
  unfold Run runErrorSpec
  by_cases h0 : rs.scriptType = CommandLine
  · simp [h, h0, runCommands, runLines_err, effectiveCmds]
  · by_cases h1 : rs.scriptType = RawScript
    · simp [h, h0, h1, CommandLine, RawScript, runScript_err]
    · by_cases h2 : rs.scriptType = ScriptFile
      · simp only [h, h0, h1, h2, CommandLine, RawScript, ScriptFile]
        unfold runScriptFile
        cases hf : fs rs.scriptFile with
        | error e => simp
        | ok content => simp [runScript_err]
      · simp [h, h0, h1, h2]

lemma Run_capt (fs : FileSys) (tr : Transport) (rs : RemoteScript) (w : World) {oi ei : Nat}
    (h : rs.err = none) (hoe : oi ≠ ei) (ho : rs.stdout = some oi) (he : rs.stderr = some ei) :
    getBuf (Run fs tr rs w).2.2 oi
        = getBuf w oi ++ (runCapturedSpec fs tr rs w.sessions).1
      ∧ getBuf (Run fs tr rs w).2.2 ei
        = getBuf w ei ++ (runCapturedSpec fs tr rs w.sessions).2 := by
  unfold Run runCapturedSpec
  by_cases h0 : rs.scriptType = CommandLine
  · simpa [h, h0, runCommands, effectiveCmds] using
      runLines_capt tr rs hoe ho he (splitNewline rs.script) w
  · by_cases h1 : rs.scriptType = RawScript
    · simpa [h, h0, h1, CommandLine, RawScript] using runScript_capt tr rs w hoe ho he
    · by_cases h2 : rs.scriptType = ScriptFile
      · simp only [h, h0, h1, h2, CommandLine, RawScript, ScriptFile]
        unfold runScriptFile
        cases hf : fs rs.scriptFile with
        | error e => simp [getBuf]
        | ok content =>
          simpa using runScript_capt tr
            { rs with script := content, scriptType := RawScript } w hoe ho he
      · simp [h, h0, h1, h2, getBuf]

/-! Concrete material used by the witnesses. -/

/-- An empty world. -/
def wW0 : World := { buffers := fun _ => "", nextBuf := 0, sessions := 0, trace := [] }

/-- A transport on which everything succeeds silently. -/
def trW0 : Transport :=
  { newSession := fun _ => none, run := fun _ => ⟨none, "", ""⟩,
    shellStart := fun _ => none, wait := fun _ => ⟨none, "", ""⟩ }

/-- A filesystem on which every read succeeds with empty content. -/
def fsW0 : FileSys := fun _ => Except.ok ""

/-- A specification carrying a deferred error. -/
def rsW1 : RemoteScript :=
  { scriptType := CommandLine, script := "x", scriptFile := "", err := some ⟨"boom"⟩,
    stdout := none, stderr := none }

/-- A filesystem on which every read fails with a not-found error. -/
def fsErr : FileSys :=
  fun _ => Except.error ⟨"open nosuch: no such file or directory"⟩

/-- C1: with a deferred error set, `Run`, `Output` and `SmartOutput` each
return exactly that error (the byte results being Go `nil`), leave the
specification and the world — in particular the transport trace and session
count — completely unchanged, and no operation clears the deferred error
(`SetStdio` keeps it; `Cmd` either keeps it or rewrites it to the one error
value `Cmd` can ever store). -/
theorem C1_deferred_error_short_circuit (fs : FileSys) (tr : Transport)
    (rs : RemoteScript) (w : World) (e : GoError) (h : rs.err = some e) :
    Run fs tr rs w = (some e, rs, w)
      ∧ Output fs tr rs w = (none, some e, rs, w)
      ∧ SmartOutput fs tr rs w = (none, some e, rs, w)
      ∧ (∀ o o', (SetStdio rs o o').err = some e)
      ∧ (∀ c, (Cmd rs c).err = some e ∨ (Cmd rs c).err = some cmdOnlyCommandLineErr) := by
  refine ⟨?_, ?_, ?_, ?_, ?_⟩
  · simp [Run, h]
  · simp [Output, h]
  · simp [SmartOutput, h]
  · intro o o'
    simp [SetStdio, h]
  · intro c
    by_cases hc : rs.scriptType = CommandLine
    · exact Or.inl (by by_cases hsc : rs.script = "" <;> simp [Cmd, hc, hsc, h])
    · exact Or.inr (by simp [Cmd, hc])

/-- Witness for C1 at a concrete errored specification. -/
theorem C1_deferred_error_short_circuit_witness :
    rsW1.err = some ⟨"boom"⟩
      ∧ (Run fsW0 trW0 rsW1 wW0 = (some ⟨"boom"⟩, rsW1, wW0)
         ∧ Output fsW0 trW0 rsW1 wW0 = (none, some ⟨"boom"⟩, rsW1, wW0)
         ∧ SmartOutput fsW0 trW0 rsW1 wW0 = (none, some ⟨"boom"⟩, rsW1, wW0)
         ∧ (∀ o o', (SetStdio rsW1 o o').err = some ⟨"boom"⟩)
         ∧ (∀ c, (Cmd rsW1 c).err = some ⟨"boom"⟩
              ∨ (Cmd rsW1 c).err = some cmdOnlyCommandLineErr)) :=
  ⟨rfl, C1_deferred_error_short_circuit fsW0 trW0 rsW1 wW0 ⟨"boom"⟩ rfl⟩

/-- C2: `Output` and `SmartOutput` restore the persistent sinks on every
exit path: for every specification, every transport behaviour and every
pre-call sink values (including `none`, the Go nil), the specification
returned to the caller carries exactly the pre-call `stdout` and `stderr`
sinks. -/
theorem C2_output_restores_sinks (fs : FileSys) (tr : Transport)
    (rs : RemoteScript) (w : World) :
    (Output fs tr rs w).2.2.1.stdout = rs.stdout
      ∧ (Output fs tr rs w).2.2.1.stderr = rs.stderr
      ∧ (SmartOutput fs tr rs w).2.2.1.stdout = rs.stdout
      ∧ (SmartOutput fs tr rs w).2.2.1.stderr = rs.stderr := by
  refine ⟨?_, ?_, ?_, ?_⟩
  · cases h : rs.err <;> simp [Output, h]
  · cases h : rs.err <;> simp [Output, h, Run_spec_unchanged]
  · cases h : rs.err
    · simp only [SmartOutput, h]
      split <;> simp
    · simp [SmartOutput, h]
  · cases h : rs.err
    · simp only [SmartOutput, h]
      split <;> simp
    · simp [SmartOutput, h]

/-- C3: for a `ScriptFile` specification, `Run` hands back the specification
with its pre-call `scriptType` and `script` fields (the temporary `RawScript`
reinterpretation is restored on success and failure alike), and a local
file-read error is returned unchanged with the world untouched. -/
theorem C3_scriptfile_frame (fs : FileSys) (tr : Transport) (rs : RemoteScript)
    (w : World) (h : rs.err = none) (hm : rs.scriptType = ScriptFile) :
    ((Run fs tr rs w).2.1.scriptType = rs.scriptType
        ∧ (Run fs tr rs w).2.1.script = rs.script
        ∧ (Run fs tr rs w).2.1.scriptFile = rs.scriptFile
        ∧ (Run fs tr rs w).2.1 = rs)
      ∧ (∀ e, fs rs.scriptFile = Except.error e → Run fs tr rs w = (some e, rs, w)) := by
  have hu := Run_spec_unchanged fs tr rs w
  refine ⟨⟨by rw [hu], by rw [hu], by rw [hu], hu⟩, ?_⟩
  intro e hf
  unfold Run
  simp [h, hm, CommandLine, RawScript, ScriptFile, runScriptFile, hf]

/-- Witness for C3: a nonexistent path propagates the not-found error and
leaves the specification at its original values. -/
theorem C3_scriptfile_frame_witness :
    ((client.ScriptFile "nosuch").err = none
        ∧ (client.ScriptFile "nosuch").scriptType = ScriptFile
        ∧ fsErr (client.ScriptFile "nosuch").scriptFile
            = Except.error ⟨"open nosuch: no such file or directory"⟩)
      ∧ Run fsErr trW0 (client.ScriptFile "nosuch") wW0
          = (some ⟨"open nosuch: no such file or directory"⟩, client.ScriptFile "nosuch", wW0) :=
  ⟨⟨rfl, rfl, rfl⟩,
   (C3_scriptfile_frame fsErr trW0 (client.ScriptFile "nosuch") wW0 rfl rfl).2 _ rfl⟩

/-- C8: a specification whose mode tag is none of the three defined variants
(and no deferred error) makes `Run` return the "unsupported script type"
error — whose message contains the substring "unsupported" — with the
specification and world (hence the transport trace) unchanged. -/
theorem C8_unsupported_mode (fs : FileSys) (tr : Transport) (rs : RemoteScript)
    (w : World) (h : rs.err = none) (h0 : ¬ rs.scriptType = CommandLine)
    (h1 : ¬ rs.scriptType = RawScript) (h2 : ¬ rs.scriptType = ScriptFile) :
    Run fs tr rs w = (some unsupportedScriptTypeErr, rs, w)
      ∧ unsupportedScriptTypeErr.msg = "unsupported script type"
      ∧ List.isPrefixOf "unsupported".data unsupportedScriptTypeErr.msg.data = true := by
  refine ⟨?_, rfl, by decide⟩
  unfold Run
  simp [h, h0, h1, h2]

/-- Witness for C8 at the out-of-range tag 99 used by the repository's own
test. -/
theorem C8_unsupported_mode_witness :
    (({ rsW1 with scriptType := 99, err := none } : RemoteScript).err = none
        ∧ ¬ ({ rsW1 with scriptType := 99, err := none } : RemoteScript).scriptType = CommandLine
        ∧ ¬ ({ rsW1 with scriptType := 99, err := none } : RemoteScript).scriptType = RawScript
        ∧ ¬ ({ rsW1 with scriptType := 99, err := none } : RemoteScript).scriptType = ScriptFile)
      ∧ (Run fsW0 trW0 { rsW1 with scriptType := 99, err := none } wW0
           = (some unsupportedScriptTypeErr, { rsW1 with scriptType := 99, err := none }, wW0)
         ∧ unsupportedScriptTypeErr.msg = "unsupported script type"
         ∧ List.isPrefixOf "unsupported".data unsupportedScriptTypeErr.msg.data = true) :=
  ⟨⟨rfl, by decide, by decide, by decide⟩,
   C8_unsupported_mode fsW0 trW0 _ wW0 rfl (by decide) (by decide) (by decide)⟩

/-- C6: in `CommandLine` mode, `Cmd "a"` then `Cmd "b"` on an empty body
yields the newline-joined body `a ++ "\n" ++ b` with no separator prepended
and no error recorded; in any other mode `Cmd` leaves the body fields
unchanged, records the descriptive append-not-supported deferred error, and
that error surfaces only on the next execution call (`Run` on the chained
result returns it). -/
theorem C6_cmd_append (rs : RemoteScript) (a b c : String) :
    (rs.scriptType = CommandLine → rs.script = "" → ¬ a = "" →
        (Cmd (Cmd rs a) b).script = a ++ "\n" ++ b
          ∧ (Cmd (Cmd rs a) b).err = rs.err
          ∧ (Cmd (Cmd rs a) b).scriptType = rs.scriptType)
      ∧ (¬ rs.scriptType = CommandLine →
          (Cmd rs c).script = rs.script
            ∧ (Cmd rs c).scriptFile = rs.scriptFile
            ∧ (Cmd rs c).scriptType = rs.scriptType
            ∧ (Cmd rs c).err = some cmdOnlyCommandLineErr
            ∧ cmdOnlyCommandLineErr.msg
                = "Cmd() can only be used with CommandLine script type"
            ∧ ∀ fs tr w, Run fs tr (Cmd rs c) w = (some cmdOnlyCommandLineErr, Cmd rs c, w)) := by
  constructor
  · intro hm hs ha
    simp [Cmd, hm, hs, ha]
  · intro hm
    refine ⟨by simp [Cmd, hm], by simp [Cmd, hm], by simp [Cmd, hm],
      by simp [Cmd, hm], rfl, ?_⟩
    intro fs tr w
    have he : (Cmd rs c).err = some cmdOnlyCommandLineErr := by simp [Cmd, hm]
    simp [Run, he]

/-- Witness for C6: both branches at concrete specifications built by the
factories. -/
theorem C6_cmd_append_witness :
    ((client.Command "").scriptType = CommandLine ∧ (client.Command "").script = ""
        ∧ ¬ ("a" : String) = ""
        ∧ (Cmd (Cmd (client.Command "") "a") "b").script = "a\nb"
        ∧ (Cmd (Cmd (client.Command "") "a") "b").err = none)
      ∧ (¬ (client.Script "s").scriptType = CommandLine
        ∧ (Cmd (client.Script "s") "x").script = "s"
        ∧ (Cmd (client.Script "s") "x").err = some cmdOnlyCommandLineErr
        ∧ Run fsW0 trW0 (Cmd (client.Script "s") "x") wW0
            = (some cmdOnlyCommandLineErr, Cmd (client.Script "s") "x", wW0)) := by
  have h1 := (C6_cmd_append (client.Command "") "a" "b" "x").1 rfl rfl (by decide)
  have h2 := (C6_cmd_append (client.Script "s") "a" "b" "x").2 (by decide)
  exact ⟨⟨rfl, rfl, by decide, h1.1.trans (by decide), h1.2.1⟩,
    ⟨by decide, h2.1, h2.2.2.2.1, h2.2.2.2.2.2 fsW0 trW0 wW0⟩⟩

/-- One operation preserves the `CommandLine`-mode no-deferred-error state. -/
lemma applyOp_invariant (rs : RemoteScript) (op : Op)
    (h : rs.err = none) (hm : rs.scriptType = CommandLine) :
    (applyOp rs op).err = none ∧ (applyOp rs op).scriptType = CommandLine := by
  cases op with
  | cmd c => by_cases hs : rs.script = "" <;> simp [applyOp, Cmd, hm, hs, h]
  | setStdio o e => simp [applyOp, SetStdio, h, hm]
  | run fs tr w => simp [applyOp, Run_spec_unchanged, h, hm]
  | output fs tr w => simp [applyOp, Output, h, Run_spec_unchanged, hm]
  | smartOutput fs tr w =>
    simp only [applyOp, SmartOutput, h]
    split <;> simp [Run_spec_unchanged, h, hm]

/-- Any sequence of operations preserves that state. -/
lemma applyOps_invariant :
    ∀ (ops : List Op) (rs : RemoteScript), rs.err = none → rs.scriptType = CommandLine →
      (applyOps rs ops).err = none ∧ (applyOps rs ops).scriptType = CommandLine := by
  intro ops
  induction ops with
  | nil => intro rs h hm; exact ⟨h, hm⟩
  | cons op ops ih =>
    intro rs h hm
    have h1 := applyOp_invariant rs op h hm
    exact ih _ h1.1 h1.2

/-- C10: a specification created by the `Command` factory keeps
`deferredError = nil` and stays in `CommandLine` mode under every sequence of
`Cmd`, `SetStdio`, `Run`, `Output` and `SmartOutput` calls; consequently its
`Run` result always comes from the dispatched command sequence (never from
the deferred-error short-circuit) and `Output` always returns non-nil
bytes. -/
theorem C10_commandline_never_deferred (c : String) (ops : List Op) :
    (applyOps (client.Command c) ops).err = none
      ∧ (applyOps (client.Command c) ops).scriptType = CommandLine
      ∧ (∀ fs tr w, (Run fs tr (applyOps (client.Command c) ops) w).1
          = seqError tr w.sessions (effectiveCmds (applyOps (client.Command c) ops).script))
      ∧ (∀ fs tr w, (Output fs tr (applyOps (client.Command c) ops) w).1.isSome = true) := by
  have hinv := applyOps_invariant ops (client.Command c) rfl rfl
  refine ⟨hinv.1, hinv.2, ?_, ?_⟩
  · intro fs tr w
    rw [Run_err fs tr _ w hinv.1]
    unfold runErrorSpec
    simp [hinv.2]
  · intro fs tr w
    simp [Output, hinv.1]

/-- Transport for the multi-line abort scenario: running `fail` fails after
writing `bad` to stderr; every other command succeeds and echoes itself. -/
def trW4 : Transport :=
  { newSession := fun _ => none,
    run := fun c =>
      if c = "fail" then ⟨some ⟨"exit 1"⟩, "", "bad"⟩ else ⟨none, c ++ "-out", ""⟩,
    shellStart := fun _ => none, wait := fun _ => ⟨none, "", ""⟩ }

/-- The `"ok\nfail\nnever"` specification of the scenario. -/
def rsW4 : RemoteScript := client.Command "ok\nfail\nnever"

/-- C4: a `CommandLine` run splits the body on newlines, trims every line,
skips blank lines and executes the remaining lines in order — each one in a
freshly opened session that is closed before the next (the trace is the
per-line open/run/close blocks of `seqTrace`), aborting at the first
session-open or run failure with exactly that error and no later line
executed; a body whose lines all trim to blank performs no transport calls
at all and returns `none`. -/
theorem C4_command_sequence (fs : FileSys) (tr : Transport) (rs : RemoteScript)
    (w : World) (h : rs.err = none) (hm : rs.scriptType = CommandLine) :
    (Run fs tr rs w).1 = seqError tr w.sessions (effectiveCmds rs.script)
      ∧ (Run fs tr rs w).2.1 = rs
      ∧ (Run fs tr rs w).2.2.trace = w.trace ++ seqTrace tr w.sessions (effectiveCmds rs.script)
      ∧ ((∀ l ∈ splitNewline rs.script, trimSpace l = "") → Run fs tr rs w = (none, rs, w)) := by
  refine ⟨?_, Run_spec_unchanged fs tr rs w, ?_, ?_⟩
  · rw [Run_err fs tr rs w h]
    unfold runErrorSpec
    simp [hm]
  · unfold Run
    simp [h, hm, runCommands, runLines_trace, effectiveCmds]
  · intro hblank
    unfold Run
    simp [h, hm, runCommands, runLines_blank tr rs _ w hblank]

/-- Witness for C4: on `"ok\nfail\nnever"` the run aborts at `fail` with its
error, the trace holds exactly two open/run/close blocks (so `never` is
unexecuted), and a whitespace-only body runs nothing. -/
theorem C4_command_sequence_witness :
    (rsW4.err = none ∧ rsW4.scriptType = CommandLine
      ∧ (client.Command " \n  \n").err = none
      ∧ (client.Command " \n  \n").scriptType = CommandLine
      ∧ (∀ l ∈ splitNewline (client.Command " \n  \n").script, trimSpace l = ""))
      ∧ ((Run fsW0 trW4 rsW4 wW0).1 = some ⟨"exit 1"⟩
        ∧ (Run fsW0 trW4 rsW4 wW0).2.2.trace
            = [Event.newSession, Event.runCmd "ok", Event.closeSession,
               Event.newSession, Event.runCmd "fail", Event.closeSession]
        ∧ Run fsW0 trW0 (client.Command " \n  \n") wW0
            = (none, client.Command " \n  \n", wW0)) := by
  have h := C4_command_sequence fsW0 trW4 rsW4 wW0 rfl rfl
  have h2 := C4_command_sequence fsW0 trW0 (client.Command " \n  \n") wW0 rfl rfl
  refine ⟨⟨rfl, rfl, rfl, rfl, by decide⟩, ?_, ?_, h2.2.2.2 (by decide)⟩
  · rw [h.1]
    decide
  · rw [h.2.2.1]
    decide

/-- C5: with no deferred error, `SmartOutput` performs one dispatched run
with both sinks bound to fresh private buffers and returns `Run`'s
spec-level error together with the bytes the remote steps wrote to stderr
when that error is set, and the bytes written to stdout otherwise. -/
theorem C5_smart_output_selects_stream (fs : FileSys) (tr : Transport)
    (rs : RemoteScript) (w : World) (h : rs.err = none) :
    (SmartOutput fs tr rs w).2.1 = runErrorSpec fs tr rs w.sessions
      ∧ (SmartOutput fs tr rs w).1
        = some (if (runErrorSpec fs tr rs w.sessions).isSome
                then (runCapturedSpec fs tr rs w.sessions).2
                else (runCapturedSpec fs tr rs w.sessions).1) := by
  obtain ⟨st, sc, sf, er, so, se⟩ := rs
  simp only at h
  subst h
  have hoe : w.nextBuf ≠ w.nextBuf + 1 := Nat.ne_of_lt (Nat.lt_succ_self _)
  have hcapA : getBuf (Run fs tr
      (RemoteScript.mk st sc sf none (some w.nextBuf) (some (w.nextBuf + 1)))
      { w with buffers := fun j => if j = w.nextBuf ∨ j = w.nextBuf + 1 then "" else w.buffers j,
               nextBuf := w.nextBuf + 2 }).2.2 w.nextBuf
        = (runCapturedSpec fs tr (RemoteScript.mk st sc sf none so se) w.sessions).1 := by
    have hc := (Run_capt fs tr
      (RemoteScript.mk st sc sf none (some w.nextBuf) (some (w.nextBuf + 1)))
      { w with buffers := fun j => if j = w.nextBuf ∨ j = w.nextBuf + 1 then "" else w.buffers j,
               nextBuf := w.nextBuf + 2 } rfl hoe rfl rfl).1
    rw [show getBuf { w with
          buffers := fun j => if j = w.nextBuf ∨ j = w.nextBuf + 1 then "" else w.buffers j,
          nextBuf := w.nextBuf + 2 } w.nextBuf = "" by simp [getBuf],
       String.empty_append] at hc
    exact hc
  have hcapB : getBuf (Run fs tr
      (RemoteScript.mk st sc sf none (some w.nextBuf) (some (w.nextBuf + 1)))
      { w with buffers := fun j => if j = w.nextBuf ∨ j = w.nextBuf + 1 then "" else w.buffers j,
               nextBuf := w.nextBuf + 2 }).2.2 (w.nextBuf + 1)
        = (runCapturedSpec fs tr (RemoteScript.mk st sc sf none so se) w.sessions).2 := by
    have hc := (Run_capt fs tr
      (RemoteScript.mk st sc sf none (some w.nextBuf) (some (w.nextBuf + 1)))
      { w with buffers := fun j => if j = w.nextBuf ∨ j = w.nextBuf + 1 then "" else w.buffers j,
               nextBuf := w.nextBuf + 2 } rfl hoe rfl rfl).2
    rw [show getBuf { w with
          buffers := fun j => if j = w.nextBuf ∨ j = w.nextBuf + 1 then "" else w.buffers j,
          nextBuf := w.nextBuf + 2 } (w.nextBuf + 1) = "" by simp [getBuf],
       String.empty_append] at hc
    exact hc
  have herr : (Run fs tr
      (RemoteScript.mk st sc sf none (some w.nextBuf) (some (w.nextBuf + 1)))
      { w with buffers := fun j => if j = w.nextBuf ∨ j = w.nextBuf + 1 then "" else w.buffers j,
               nextBuf := w.nextBuf + 2 }).1
        = runErrorSpec fs tr (RemoteScript.mk st sc sf none so se) w.sessions :=
    Run_err fs tr _ _ rfl
  simp only [SmartOutput]
  cases hq : (Run fs tr
      (RemoteScript.mk st sc sf none (some w.nextBuf) (some (w.nextBuf + 1)))
      { w with buffers := fun j => if j = w.nextBuf ∨ j = w.nextBuf + 1 then "" else w.buffers j,
               nextBuf := w.nextBuf + 2 }).1 with
  | some e =>
    rw [hq] at herr
    refine ⟨herr, ?_⟩
    rw [← herr]
    simpa using hcapB
  | none =>
    rw [hq] at herr
    refine ⟨herr, ?_⟩
    rw [← herr]
    simpa using hcapA

/-- Transport on which every run fails after writing `boom` to stderr. -/
def trW5 : Transport :=
  { newSession := fun _ => none,
    run := fun _ => ⟨some ⟨"exit 1"⟩, "stdout-noise", "boom"⟩,
    shellStart := fun _ => none, wait := fun _ => ⟨none, "", ""⟩ }

/-- Transport on which every run succeeds writing `hello` to stdout. -/
def trW5ok : Transport :=
  { newSession := fun _ => none,
    run := fun _ => ⟨none, "hello", "stderr-noise"⟩,
    shellStart := fun _ => none, wait := fun _ => ⟨none, "", ""⟩ }

/-- A one-command specification for the SmartOutput scenarios. -/
def rsW5 : RemoteScript := client.Command "step"

/-- Witness for C5: on failure `SmartOutput` returns the stderr bytes
`boom` with the error, not the stdout buffer; on success it returns the
stdout bytes with no error. -/
theorem C5_smart_output_selects_stream_witness :
    rsW5.err = none
      ∧ ((SmartOutput fsW0 trW5 rsW5 wW0).2.1 = some ⟨"exit 1"⟩
         ∧ (SmartOutput fsW0 trW5 rsW5 wW0).1 = some "boom")
      ∧ ((SmartOutput fsW0 trW5ok rsW5 wW0).2.1 = none
         ∧ (SmartOutput fsW0 trW5ok rsW5 wW0).1 = some "hello") := by
  have h1 := C5_smart_output_selects_stream fsW0 trW5 rsW5 wW0 rfl
  have h2 := C5_smart_output_selects_stream fsW0 trW5ok rsW5 wW0 rfl
  exact ⟨rfl, ⟨h1.1.trans (by decide), h1.2.trans (by decide)⟩,
    ⟨h2.1.trans (by decide), h2.2.trans (by decide)⟩⟩

/-- C7: when a pseudo-terminal is requested and the session opens, the PTY
negotiation happens right after the session open and before any shell-start
or wait step; its parameters are the caller's terminal configuration when
present and otherwise `DefaultTerminalConfig` (term `xterm`, width 80,
height 40, empty mode set); and a negotiation failure makes `Start` return
that error with the session closed and with no shell-start and no wait
attempted. -/
theorem C7_pty_negotiated_before_shell (tr : ShellTransport) (rs : RemoteShell)
    (command : String) (hp : rs.requestPty = true) (hs : tr.newSessionErr = none) :
    (∃ rest, (Start tr rs command).2
        = ShellEvent.newSession :: (requestPseudoTerminal tr rs).2 :: rest)
      ∧ ((requestPseudoTerminal tr rs)
          = match rs.terminalConfig with
            | none =>
              (tr.ptyErr "xterm" 40 80, ShellEvent.requestPty "xterm" 40 80 [])
            | some tc =>
              (tr.ptyErr tc.Term tc.Height tc.Width,
               ShellEvent.requestPty tc.Term tc.Height tc.Width tc.Modes))
      ∧ DefaultTerminalConfig = { Term := "xterm", Width := 80, Height := 40, Modes := [] }
      ∧ (∀ e, (requestPseudoTerminal tr rs).1 = some e →
          Start tr rs command
              = (some e, [ShellEvent.newSession, (requestPseudoTerminal tr rs).2,
                          ShellEvent.closeSession])
            ∧ ShellEvent.shellStart ∉ (Start tr rs command).2
            ∧ ShellEvent.wait ∉ (Start tr rs command).2) := by
  refine ⟨?_, ?_, rfl, ?_⟩
  · unfold Start
    rw [hs]
    simp only [hp, if_true]
    cases hpe : (requestPseudoTerminal tr rs).1 with
    | some e => exact ⟨[ShellEvent.closeSession], by simp⟩
    | none =>
      by_cases hc : command = ""
      · cases hsh : tr.shellErr <;> simp [hc, hsh]
      · cases hsh : tr.shellErr <;> simp [hc, hsh]
  · unfold requestPseudoTerminal
    cases htc : rs.terminalConfig with
    | none => simp [DefaultTerminalConfig]
    | some tc => simp
  · intro e hpe
    have hstart : Start tr rs command
        = (some e, [ShellEvent.newSession, (requestPseudoTerminal tr rs).2,
                    ShellEvent.closeSession]) := by
      unfold Start
      rw [hs]
      simp [hp, hpe]
    have hev : ∃ t hh ww m,
        (requestPseudoTerminal tr rs).2 = ShellEvent.requestPty t hh ww m := by
      unfold requestPseudoTerminal
      cases rs.terminalConfig <;> exact ⟨_, _, _, _, rfl⟩
    obtain ⟨t, hh, ww, m, hev⟩ := hev
    refine ⟨hstart, ?_, ?_⟩ <;>
      · rw [hstart, hev]
        simp

/-- Witnesses for C7: a failing negotiation with a caller-supplied terminal
configuration, applied at concrete values. -/
theorem C7_pty_negotiated_before_shell_witness :
    (({ shellType := InteractiveShell, requestPty := true,
        terminalConfig := some ⟨"vt100", 100, 30, []⟩,
        stdin := none, stdout := none, stderr := none } : RemoteShell).requestPty = true
      ∧ ({ newSessionErr := none, ptyErr := fun _ _ _ => some ⟨"pty denied"⟩,
           runErr := fun _ => none, shellErr := none,
           waitErr := none } : ShellTransport).newSessionErr = none)
      ∧ (Start
            { newSessionErr := none, ptyErr := fun _ _ _ => some ⟨"pty denied"⟩,
              runErr := fun _ => none, shellErr := none, waitErr := none }
            { shellType := InteractiveShell, requestPty := true,
              terminalConfig := some ⟨"vt100", 100, 30, []⟩,
              stdin := none, stdout := none, stderr := none } "cmd"
          = (some ⟨"pty denied"⟩,
             [ShellEvent.newSession, ShellEvent.requestPty "vt100" 30 100 [],
              ShellEvent.closeSession])) := by
  have h := (C7_pty_negotiated_before_shell
      { newSessionErr := none, ptyErr := fun _ _ _ => some ⟨"pty denied"⟩,
        runErr := fun _ => none, shellErr := none, waitErr := none }
      { shellType := InteractiveShell, requestPty := true,
        terminalConfig := some ⟨"vt100", 100, 30, []⟩,
        stdin := none, stdout := none, stderr := none } "cmd" rfl rfl).2.2.2
      ⟨"pty denied"⟩ rfl
  exact ⟨⟨rfl, rfl⟩, h.1⟩

/-- C9: the result of `Start` never depends on the initial command's own
run result — the error of `session.Run command` is discarded — so with a
good session, negotiation, shell start and wait, `Start` returns `nil` even
though the initial command failed (the failed run is still issued, as the
trace records). -/
theorem C9_initial_command_error_discarded (tr : ShellTransport) (rs : RemoteShell)
    (command : String) :
    (∀ f g, (Start { tr with runErr := f } rs command).1
        = (Start { tr with runErr := g } rs command).1)
      ∧ (∀ e, ¬ command = "" → tr.newSessionErr = none →
          (rs.requestPty = true → (requestPseudoTerminal tr rs).1 = none) →
          tr.shellErr = none → tr.waitErr = none → tr.runErr command = some e →
          (Start tr rs command).1 = none
            ∧ ShellEvent.runCmd command (some e) ∈ (Start tr rs command).2) := by
  constructor
  · intro f g
    have hfpty : ∀ (a : Option GoError) (h' : String → Option GoError) (b c : Option GoError),
        requestPseudoTerminal
            { newSessionErr := a, ptyErr := tr.ptyErr, runErr := h',
              shellErr := b, waitErr := c } rs
          = requestPseudoTerminal tr rs :=
      fun _ _ _ _ => rfl
    unfold Start
    cases hs : tr.newSessionErr with
    | some e => simp
    | none =>
      simp only [hfpty]
      by_cases hp : rs.requestPty
      · cases hpe : (requestPseudoTerminal tr rs).1 with
        | some e => simp [hp, hpe]
        | none =>
          by_cases hc : command = "" <;>
            cases hsh : tr.shellErr <;> simp [hp, hpe, hc, hsh]
      · by_cases hc : command = "" <;>
          cases hsh : tr.shellErr <;> simp [hp, hc, hsh]
  · intro e hc hs hpty hsh hw hr
    unfold Start
    rw [hs]
    by_cases hp : rs.requestPty
    · simp [hp, hpty hp, hc, hr, hsh, hw]
    · simp [hp, hc, hr, hsh, hw]

/-- Witness for C9: a failing initial command on an otherwise clean session
still yields a `nil` result from `Start`. -/
theorem C9_initial_command_error_discarded_witness :
    (¬ ("ls" : String) = ""
      ∧ ({ newSessionErr := none, ptyErr := fun _ _ _ => none,
           runErr := fun _ => some ⟨"command failed"⟩, shellErr := none,
           waitErr := none } : ShellTransport).runErr "ls" = some ⟨"command failed"⟩)
      ∧ ((Start
            { newSessionErr := none, ptyErr := fun _ _ _ => none,
              runErr := fun _ => some ⟨"command failed"⟩, shellErr := none,
              waitErr := none }
            { shellType := NonInteractiveShell, requestPty := false,
              terminalConfig := none, stdin := none, stdout := none,
              stderr := none } "ls").1 = none
        ∧ ShellEvent.runCmd "ls" (some ⟨"command failed"⟩)
            ∈ (Start
                { newSessionErr := none, ptyErr := fun _ _ _ => none,
                  runErr := fun _ => some ⟨"command failed"⟩, shellErr := none,
                  waitErr := none }
                { shellType := NonInteractiveShell, requestPty := false,
                  terminalConfig := none, stdin := none, stdout := none,
                  stderr := none } "ls").2) :=
  ⟨⟨by decide, rfl⟩,
   (C9_initial_command_error_discarded
      { newSessionErr := none, ptyErr := fun _ _ _ => none,
        runErr := fun _ => some ⟨"command failed"⟩, shellErr := none,
        waitErr := none }
      { shellType := NonInteractiveShell, requestPty := false,
        terminalConfig := none, stdin := none, stdout := none,
        stderr := none } "ls").2 ⟨"command failed"⟩ (by decide) rfl
      (fun hpty => by simp at hpty) rfl rfl rfl⟩

end Dingo
